import Mathlib

/-!
Verification development for the Awadh Dairy identity and access-control core.

The definitions below are a shallow embedding of the PIN-based credential
scheme of the repository: the `auth_attempts` lockout ledger and the
`verify_pin` / `verify_customer_pin` SQL functions (consolidated_schema.sql),
the `verify_pin` variant of create_user_functions.sql, the
`change_own_pin` and `admin_update_user_status` RPC functions, the
delete-user API handler (api/delete-user.ts) together with the
`ON DELETE CASCADE` foreign keys of the schema, the customer login handler
(api/customer-auth.ts), and the `check_phone_availability` function.

Bcrypt hashing (`crypt(pin, gen_salt('bf'))`) is modelled abstractly: a
stored digest is represented by the PIN it hashes, and `crypt(p, h) = h`
holds exactly when `p` is that PIN; a SQL `NULL` `pin_hash` never matches
(in SQL, `crypt(p, NULL)` is `NULL` and a `NULL` comparison is not true).
Timestamps are natural numbers counted in minutes, so `NOW() + INTERVAL
'15 minutes'` becomes `now + 15`.
-/

set_option autoImplicit false

namespace AwadhDairy

/-- The seven-value `user_role` enum of the schema. -/
inductive Role
  | super_admin
  | manager
  | accountant
  | delivery_staff
  | farm_worker
  | vet_staff
  | auditor
deriving DecidableEq, Repr

/-- A row of `public.profiles`: the internal staff credential store.
`pin_hash = some p` models a bcrypt digest of PIN `p`; `none` models SQL NULL. -/
structure Profile where
  id : Nat
  full_name : String
  phone : String
  pin_hash : Option String
  role : Role
  is_active : Bool
deriving DecidableEq, Repr

/-- `pin_hash = crypt(candidate, pin_hash)`: true exactly when a digest is
stored and the candidate is the PIN it hashes.  A NULL hash never matches. -/
def pinMatches (candidate : String) : Option String → Bool
  | none => false
  | some h => h == candidate

/-- A row of `public.auth_attempts` (and `customer_auth_attempts`):
failure counter, optional lockout expiry, last-attempt time. -/
structure Attempt where
  failed_count : Nat
  locked_until : Option Nat
  last_attempt : Nat
deriving DecidableEq, Repr

/-- The lockout ledger: rows keyed by (unique) phone number. -/
abbrev Ledger := List (String × Attempt)

/-- `SELECT ... FROM auth_attempts WHERE phone = ph`. -/
def ledgerLookup : Ledger → String → Option Attempt
  | [], _ => none
  | (k, a) :: rest, ph => if k = ph then some a else ledgerLookup rest ph

/-- The failed-attempt upsert of `verify_pin`:
`INSERT ... VALUES (ph, 1, NOW()) ON CONFLICT (phone) DO UPDATE SET
failed_count = failed_count + 1, last_attempt = NOW(), locked_until =
CASE WHEN failed_count >= 4 THEN NOW() + INTERVAL '15 minutes' ELSE NULL END`.
The `failed_count` in the CASE is the pre-update value of the row. -/
def recordFailure (now : Nat) : Ledger → String → Ledger
  | [], ph => [(ph, ⟨1, none, now⟩)]
  | (k, a) :: rest, ph =>
      if k = ph then
        (k, ⟨a.failed_count + 1,
             if 4 ≤ a.failed_count then some (now + 15) else none,
             now⟩) :: rest
      else (k, a) :: recordFailure now rest ph

/-- `DELETE FROM auth_attempts WHERE phone = ph` (reset on success). -/
def recordSuccess : Ledger → String → Ledger
  | [], _ => []
  | (k, a) :: rest, ph =>
      if k = ph then recordSuccess rest ph else (k, a) :: recordSuccess rest ph

/-- The lock test of `verify_pin`: a row exists and
`locked_until IS NOT NULL AND locked_until > NOW()`. -/
def lockedNow (now : Nat) (l : Ledger) (ph : String) : Bool :=
  match ledgerLookup l ph with
  | none => false
  | some a =>
      match a.locked_until with
      | none => false
      | some t => decide (now < t)

/-- The stored failure counter for a phone (0 when no row exists). -/
def attemptCount (l : Ledger) (ph : String) : Nat :=
  match ledgerLookup l ph with
  | none => 0
  | some a => a.failed_count

/-- Result of the consolidated `verify_pin`: the lock exception, the NULL
return (invalid credentials), or the resolved user id. -/
inductive StaffVerify
  | locked
  | invalid
  | success (uid : Nat)
deriving DecidableEq, Repr

/-- `SELECT id FROM profiles WHERE phone = ph AND pin_hash = crypt(pin, pin_hash)`.
Note: the consolidated `verify_pin` does not filter on `is_active`. -/
def lookupStaffByPin : List Profile → String → String → Option Nat
  | [], _, _ => none
  | p :: rest, ph, pin =>
      if p.phone = ph ∧ pinMatches pin p.pin_hash then some p.id
      else lookupStaffByPin rest ph pin

/-- `public.verify_pin` of consolidated_schema.sql (and of migration
20251230071000): check the lock, then look up phone+PIN; on a miss record a
failure and return NULL, on a hit delete the ledger row and return the id. -/
def verify_pin (now : Nat) (ledger : Ledger) (profiles : List Profile)
    (ph pin : String) : StaffVerify × Ledger :=
  if lockedNow now ledger ph then (StaffVerify.locked, ledger)
  else
    match lookupStaffByPin profiles ph pin with
    | none => (StaffVerify.invalid, recordFailure now ledger ph)
    | some uid => (StaffVerify.success uid, recordSuccess ledger ph)

/-- `public.verify_pin` of create_user_functions.sql: a plain
`RETURN QUERY SELECT id, role, full_name FROM profiles WHERE phone = ph AND
pin_hash = crypt(pin, pin_hash) AND is_active = true`; no lockout ledger. -/
def verify_pin_v2 : List Profile → String → String → List (Nat × Role × String)
  | [], _, _ => []
  | p :: rest, ph, pin =>
      if p.phone = ph ∧ pinMatches pin p.pin_hash ∧ p.is_active = true then
        (p.id, p.role, p.full_name) :: verify_pin_v2 rest ph pin
      else verify_pin_v2 rest ph pin

/-! Basic ledger lemmas. -/

theorem ledgerLookup_recordSuccess (l : Ledger) (ph : String) :
    ledgerLookup (recordSuccess l ph) ph = none := by
  induction l with
  | nil => rfl
  | cons e rest ih =>
      obtain ⟨k, a⟩ := e
      by_cases h : k = ph
      · simp [recordSuccess, h, ih]
      · simp [recordSuccess, ledgerLookup, h, ih]

theorem ledgerLookup_recordFailure_of_none (now : Nat) (l : Ledger) (ph : String)
    (h : ledgerLookup l ph = none) :
    ledgerLookup (recordFailure now l ph) ph = some ⟨1, none, now⟩ := by
  induction l with
  | nil => simp [recordFailure, ledgerLookup]
  | cons e rest ih =>
      obtain ⟨k, a⟩ := e
      by_cases hk : k = ph
      · simp [ledgerLookup, hk] at h
      · simp only [ledgerLookup, hk, if_false, if_neg hk] at h
        simp [recordFailure, hk, ledgerLookup, ih h]

theorem ledgerLookup_recordFailure_of_some (now : Nat) (l : Ledger) (ph : String)
    (a : Attempt) (h : ledgerLookup l ph = some a) :
    ledgerLookup (recordFailure now l ph) ph =
      some ⟨a.failed_count + 1,
            if 4 ≤ a.failed_count then some (now + 15) else none,
            now⟩ := by
  induction l with
  | nil => simp [ledgerLookup] at h
  | cons e rest ih =>
      obtain ⟨k, b⟩ := e
      by_cases hk : k = ph
      · subst hk
        simp only [ledgerLookup, if_true, Option.some.injEq, eq_self_iff_true, if_pos] at h
        subst h
        simp [recordFailure, ledgerLookup]
      · simp only [ledgerLookup, hk, if_neg hk] at h
        simp [recordFailure, hk, ledgerLookup, ih h]

theorem lockedNow_of_none (now : Nat) (l : Ledger) (ph : String)
    (h : ledgerLookup l ph = none) : lockedNow now l ph = false := by
  simp [lockedNow, h]

theorem lockedNow_of_no_expiry (now : Nat) (l : Ledger) (ph : String) (a : Attempt)
    (h : ledgerLookup l ph = some a) (hexp : a.locked_until = none) :
    lockedNow now l ph = false := by
  simp [lockedNow, h, hexp]

theorem lockedNow_of_future_expiry (now : Nat) (l : Ledger) (ph : String)
    (a : Attempt) (t : Nat) (h : ledgerLookup l ph = some a)
    (hexp : a.locked_until = some t) (hlt : now < t) :
    lockedNow now l ph = true := by
  simp [lockedNow, h, hexp, hlt]

/-! Step lemmas for `verify_pin`. -/

theorem verify_pin_of_locked (now : Nat) (l : Ledger) (profs : List Profile)
    (ph pin : String) (h : lockedNow now l ph = true) :
    verify_pin now l profs ph pin = (StaffVerify.locked, l) := by
  simp [verify_pin, h]

theorem verify_pin_of_fail (now : Nat) (l : Ledger) (profs : List Profile)
    (ph pin : String) (hlock : lockedNow now l ph = false)
    (hfind : lookupStaffByPin profs ph pin = none) :
    verify_pin now l profs ph pin = (StaffVerify.invalid, recordFailure now l ph) := by
  simp [verify_pin, hlock, hfind]

theorem verify_pin_of_hit (now : Nat) (l : Ledger) (profs : List Profile)
    (ph pin : String) (uid : Nat) (hlock : lockedNow now l ph = false)
    (hfind : lookupStaffByPin profs ph pin = some uid) :
    verify_pin now l profs ph pin = (StaffVerify.success uid, recordSuccess l ph) := by
  simp [verify_pin, hlock, hfind]

/-! Customer accounts, `verify_customer_pin`, and the customer login handler. -/

/-- A row of `public.customer_accounts`. -/
structure CustomerAccount where
  customer_id : Nat
  user_id : Option Nat
  phone : String
  pin_hash : Option String
  is_approved : Bool
  last_login : Option Nat
deriving DecidableEq, Repr

/-- Result of `verify_customer_pin`: the lock exception, the empty row set,
or the matched row's (customer_id, user_id, is_approved). -/
inductive CustomerVerify
  | locked
  | empty
  | row (customer_id : Nat) (user_id : Option Nat) (is_approved : Bool)
deriving DecidableEq, Repr

/-- `SELECT ... FROM customer_accounts WHERE phone = ph AND
pin_hash = crypt(pin, pin_hash)`.  No filter on `is_approved`. -/
def findCustomerByPin : List CustomerAccount → String → String → Option CustomerAccount
  | [], _, _ => none
  | c :: rest, ph, pin =>
      if c.phone = ph ∧ pinMatches pin c.pin_hash then some c
      else findCustomerByPin rest ph pin

/-- `UPDATE customer_accounts SET last_login = NOW() WHERE phone = ph`. -/
def touchLastLogin (now : Nat) (accs : List CustomerAccount) (ph : String) :
    List CustomerAccount :=
  accs.map fun c => if c.phone = ph then { c with last_login := some now } else c

/-- `public.verify_customer_pin` of consolidated_schema.sql: lock check, then
phone+PIN lookup; a miss records a failure and returns no rows, a hit deletes
the ledger row, stamps `last_login`, and returns the row. -/
def verify_customer_pin (now : Nat) (ledger : Ledger) (accs : List CustomerAccount)
    (ph pin : String) : CustomerVerify × Ledger × List CustomerAccount :=
  if lockedNow now ledger ph then (CustomerVerify.locked, ledger, accs)
  else
    match findCustomerByPin accs ph pin with
    | none => (CustomerVerify.empty, recordFailure now ledger ph, accs)
    | some c =>
        (CustomerVerify.row c.customer_id c.user_id c.is_approved,
         recordSuccess ledger ph,
         touchLastLogin now accs ph)

/-- `^\d{6}$`: exactly six decimal digits. -/
def isSixDigits (s : String) : Bool :=
  s.data.length == 6 && s.data.all Char.isDigit

/-- `^\d{10}$`: exactly ten decimal digits (phone check of the handlers). -/
def isTenDigits (s : String) : Bool :=
  s.data.length == 10 && s.data.all Char.isDigit

/-- Outcome of the customer login handler (api/customer-auth.ts, `login`). -/
inductive LoginOutcome
  | validationError
  | lockedError
  | invalidCredentials
  | pendingApproval
  | success (customer_id : Nat)
deriving DecidableEq, Repr

/-- The `login` action of api/customer-auth.ts up to the point a session is
issued: validate phone and PIN shape, call `verify_customer_pin`, map the
empty row set to a 401 invalid-credentials response, and only then check
`is_approved`, mapping false to the 403 pending response. -/
def customerLogin (now : Nat) (ledger : Ledger) (accs : List CustomerAccount)
    (ph pin : String) : LoginOutcome × Ledger × List CustomerAccount :=
  if ¬ isTenDigits ph then (LoginOutcome.validationError, ledger, accs)
  else if ¬ isSixDigits pin then (LoginOutcome.validationError, ledger, accs)
  else
    match verify_customer_pin now ledger accs ph pin with
    | (CustomerVerify.locked, l, a) => (LoginOutcome.lockedError, l, a)
    | (CustomerVerify.empty, l, a) => (LoginOutcome.invalidCredentials, l, a)
    | (CustomerVerify.row cid _ approved, l, a) =>
        if approved = false then (LoginOutcome.pendingApproval, l, a)
        else (LoginOutcome.success cid, l, a)

/-! Self-service PIN change (`public.change_own_pin`). -/

/-- Result of `change_own_pin`. -/
inductive PinChange
  | notAuthenticated
  | validationError
  | wrongCurrentPin
  | ok
deriving DecidableEq, Repr

/-- `SELECT * FROM profiles WHERE id = uid AND pin_hash = crypt(cur, pin_hash)`. -/
def findProfileByIdPin : List Profile → Nat → String → Option Profile
  | [], _, _ => none
  | p :: rest, uid, cur =>
      if p.id = uid ∧ pinMatches cur p.pin_hash then some p
      else findProfileByIdPin rest uid cur

/-- `UPDATE profiles SET pin_hash = crypt(new, gen_salt('bf')) WHERE id = uid`. -/
def setPinHash (profs : List Profile) (uid : Nat) (newPin : String) : List Profile :=
  profs.map fun p => if p.id = uid then { p with pin_hash := some newPin } else p

/-- `public.change_own_pin(current, new)`: require authentication, validate the
new PIN (`length != 6 OR new !~ '^[0-9]+$'` rejects), verify the current PIN,
then update the stored hash. -/
def change_own_pin (authUid : Option Nat) (profs : List Profile)
    (currentPin newPin : String) : PinChange × List Profile :=
  match authUid with
  | none => (PinChange.notAuthenticated, profs)
  | some uid =>
      if ¬ isSixDigits newPin then (PinChange.validationError, profs)
      else
        match findProfileByIdPin profs uid currentPin with
        | none => (PinChange.wrongCurrentPin, profs)
        | some _ => (PinChange.ok, setPinHash profs uid newPin)

/-! Administrative status update (`public.admin_update_user_status`). -/

/-- Result of `admin_update_user_status`. -/
inductive StatusResult
  | unauthorized
  | notFound
  | ok
deriving DecidableEq, Repr

/-- `EXISTS (SELECT 1 FROM profiles WHERE id = uid AND role = 'super_admin')` —
the authorization check reads the mutable `profiles.role` column. -/
def isSuperByProfiles (profs : List Profile) (uid : Nat) : Bool :=
  profs.any fun p => decide (p.id = uid) && decide (p.role = Role.super_admin)

/-- `UPDATE profiles ... WHERE id = target` found a row. -/
def profileExistsId (profs : List Profile) (uid : Nat) : Bool :=
  profs.any fun p => decide (p.id = uid)

/-- `UPDATE profiles SET is_active = b WHERE id = target`. -/
def setActive (profs : List Profile) (uid : Nat) (b : Bool) : List Profile :=
  profs.map fun p => if p.id = uid then { p with is_active := b } else p

/-- `public.admin_update_user_status(target, is_active)` as defined by the
SQL-editor scripts (part_005, targeted_fix.sql, complete_setup.sql,
create_user_functions.sql adds no guard at all): reject unless `auth.uid()`
has `role = 'super_admin'` in `profiles`, then update the target's
`is_active` flag with no further guard on the target.  The later migration
20260126201709 re-creates the function with target guards; see
`admin_update_user_status_migration` below. -/
def admin_update_user_status (authUid : Option Nat) (profs : List Profile)
    (target : Nat) (b : Bool) : StatusResult × List Profile :=
  let isSuper :=
    match authUid with
    | none => false
    | some uid => isSuperByProfiles profs uid
  if isSuper = false then (StatusResult.unauthorized, profs)
  else if profileExistsId profs target then (StatusResult.ok, setActive profs target b)
  else (StatusResult.notFound, profs)

/-! The delete-user API handler and the schema's cascading deletes. -/

/-- A row of the external session provider's `auth.users` store. -/
structure AuthUser where
  id : Nat
  email : String
deriving DecidableEq, Repr

/-- The stores touched by user deletion: `auth.users`, `public.profiles`,
`public.user_roles`. -/
structure Db where
  authUsers : List AuthUser
  profiles : List Profile
  user_roles : List (Nat × Role)
deriving DecidableEq, Repr

/-- `SELECT role FROM user_roles WHERE user_id = uid`. -/
def rolesLookup : List (Nat × Role) → Nat → Option Role
  | [], _ => none
  | r :: rest, uid => if r.1 = uid then some r.2 else rolesLookup rest uid

/-- `SELECT ... FROM profiles WHERE id = uid`. -/
def findProfileById : List Profile → Nat → Option Profile
  | [], _ => none
  | p :: rest, uid => if p.id = uid then some p else findProfileById rest uid

/-- The role resolution of api/delete-user.ts: read `profiles.role` first and
fall back to `user_roles` only when no profile row exists (`profiles.role` is
NOT NULL, so a present row always yields its role). -/
def deleteUserRole (db : Db) (actor : Nat) : Option Role :=
  match findProfileById db.profiles actor with
  | some p => some p.role
  | none => rolesLookup db.user_roles actor

def removeAuthUser : List AuthUser → Nat → List AuthUser
  | [], _ => []
  | u :: rest, uid =>
      if u.id = uid then removeAuthUser rest uid else u :: removeAuthUser rest uid

def removeProfile : List Profile → Nat → List Profile
  | [], _ => []
  | p :: rest, uid =>
      if p.id = uid then removeProfile rest uid else p :: removeProfile rest uid

def removeRoles : List (Nat × Role) → Nat → List (Nat × Role)
  | [], _ => []
  | r :: rest, uid =>
      if r.1 = uid then removeRoles rest uid else r :: removeRoles rest uid

/-- `supabaseAdmin.auth.admin.deleteUser(uid)` together with the schema's
`ON DELETE CASCADE` foreign keys from `profiles.id` and `user_roles.user_id`
to `auth.users(id)`: one logical unit removing the identity from all three
stores. -/
def deleteAuthUserCascade (db : Db) (uid : Nat) : Db :=
  { authUsers := removeAuthUser db.authUsers uid,
    profiles := removeProfile db.profiles uid,
    user_roles := removeRoles db.user_roles uid }

/-- Outcome of the main deletion path of api/delete-user.ts. -/
inductive DeleteResult
  | unauthorized
  | selfDelete
  | superAdminTarget
  | deleted
deriving DecidableEq, Repr

/-- The main deletion path of api/delete-user.ts: require the resolved role to
be `super_admin`, reject deleting one's own account, reject a target whose
`user_roles` row says `super_admin`, then delete the auth user (cascading to
`profiles` and `user_roles`). -/
def deleteUserHandler (db : Db) (actor target : Nat) : DeleteResult × Db :=
  if deleteUserRole db actor ≠ some Role.super_admin then (DeleteResult.unauthorized, db)
  else if target = actor then (DeleteResult.selfDelete, db)
  else if rolesLookup db.user_roles target = some Role.super_admin then
    (DeleteResult.superAdminTarget, db)
  else (DeleteResult.deleted, deleteAuthUserCascade db target)

/-! Phone availability (`public.check_phone_availability`). -/

/-- Classification returned by `check_phone_availability`. -/
inductive PhoneAvailability
  | available
  | reactivatable (uid : Nat) (name : String)
  | inUse
deriving DecidableEq, Repr

/-- `SELECT ... FROM profiles WHERE phone = ph`. -/
def findProfileByPhone : List Profile → String → Option Profile
  | [], _ => none
  | p :: rest, ph => if p.phone = ph then some p else findProfileByPhone rest ph

/-- `public.check_phone_availability(phone)`: no profile row means available;
an inactive row is reactivatable; an active row is in use. -/
def check_phone_availability (profs : List Profile) (ph : String) : PhoneAvailability :=
  match findProfileByPhone profs ph with
  | none => PhoneAvailability.available
  | some p =>
      if p.is_active = false then PhoneAvailability.reactivatable p.id p.full_name
      else PhoneAvailability.inUse

/-- The synthesized session-provider address for a staff phone number. -/
def staffEmail (ph : String) : String := ph ++ "@awadhdairy.com"

/-! The guarded status update of migration 20260126201709. -/

/-- `public.has_role(uid, r)` of consolidated_schema.sql:
`EXISTS (SELECT 1 FROM user_roles WHERE user_id = uid AND role = r)`. -/
def has_role (roles : List (Nat × Role)) (uid : Nat) (r : Role) : Bool :=
  roles.any fun e => decide (e.1 = uid) && decide (e.2 = r)

/-- Result of the migration's `admin_update_user_status`. -/
inductive GuardedStatusResult
  | unauthorized
  | selfDeactivation
  | superAdminTarget
  | notFound
  | ok
deriving DecidableEq, Repr

/-- `public.admin_update_user_status(target, is_active)` of migration
20260126201709_fix_admin_user_creation.sql, the latest dated definition:
reject unless `has_role(auth.uid(), 'super_admin')`; reject
`target = auth.uid() AND NOT is_active` (self-deactivation); reject a target
whose `user_roles` row is `super_admin` when `NOT is_active`; then update the
target's `is_active` flag, reporting not-found when no row matched. -/
def admin_update_user_status_migration (authUid : Option Nat)
    (roles : List (Nat × Role)) (profs : List Profile)
    (target : Nat) (b : Bool) : GuardedStatusResult × List Profile :=
  let isSuper : Bool :=
    match authUid with
    | none => false
    | some uid => has_role roles uid Role.super_admin
  let isSelf : Bool :=
    match authUid with
    | none => false
    | some uid => decide (target = uid)
  if isSuper = false then (GuardedStatusResult.unauthorized, profs)
  else if isSelf = true ∧ b = false then (GuardedStatusResult.selfDeactivation, profs)
  else if rolesLookup roles target = some Role.super_admin ∧ b = false then
    (GuardedStatusResult.superAdminTarget, profs)
  else if profileExistsId profs target = true then
    (GuardedStatusResult.ok, setActive profs target b)
  else (GuardedStatusResult.notFound, profs)

/-! Lookup lemmas. -/

theorem lookupStaffByPin_eq_none (profs : List Profile) (ph pin : String)
    (h : ∀ p ∈ profs, p.phone = ph → pinMatches pin p.pin_hash = false) :
    lookupStaffByPin profs ph pin = none := by
  induction profs with
  | nil => rfl
  | cons p rest ih =>
      have hp := h p (List.mem_cons_self p rest)
      have hrest : ∀ q ∈ rest, q.phone = ph → pinMatches pin q.pin_hash = false :=
        fun q hq => h q (List.mem_cons_of_mem p hq)
      by_cases hph : p.phone = ph
      · simp [lookupStaffByPin, hph, hp hph, ih hrest]
      · simp [lookupStaffByPin, hph, ih hrest]

theorem findCustomerByPin_eq_none (accs : List CustomerAccount) (ph pin : String)
    (h : ∀ c ∈ accs, c.phone = ph → pinMatches pin c.pin_hash = false) :
    findCustomerByPin accs ph pin = none := by
  induction accs with
  | nil => rfl
  | cons c rest ih =>
      have hc := h c (List.mem_cons_self c rest)
      have hrest : ∀ d ∈ rest, d.phone = ph → pinMatches pin d.pin_hash = false :=
        fun d hd => h d (List.mem_cons_of_mem c hd)
      by_cases hph : c.phone = ph
      · simp [findCustomerByPin, hph, hc hph, ih hrest]
      · simp [findCustomerByPin, hph, ih hrest]

/-! Step lemmas for `verify_customer_pin`. -/

theorem verify_customer_pin_of_fail (now : Nat) (l : Ledger)
    (accs : List CustomerAccount) (ph pin : String)
    (hlock : lockedNow now l ph = false)
    (hfind : findCustomerByPin accs ph pin = none) :
    verify_customer_pin now l accs ph pin =
      (CustomerVerify.empty, recordFailure now l ph, accs) := by
  simp [verify_customer_pin, hlock, hfind]

theorem verify_customer_pin_of_hit (now : Nat) (l : Ledger)
    (accs : List CustomerAccount) (ph pin : String) (c : CustomerAccount)
    (hlock : lockedNow now l ph = false)
    (hfind : findCustomerByPin accs ph pin = some c) :
    verify_customer_pin now l accs ph pin =
      (CustomerVerify.row c.customer_id c.user_id c.is_approved,
       recordSuccess l ph, touchLastLogin now accs ph) := by
  simp [verify_customer_pin, hlock, hfind]

/-! The consolidated `verify_pin` never consults the active flag. -/

theorem lookupStaffByPin_map_active (profs : List Profile) (ph pin : String)
    (f : Profile → Bool) :
    lookupStaffByPin (profs.map fun p => { p with is_active := f p }) ph pin =
      lookupStaffByPin profs ph pin := by
  induction profs with
  | nil => rfl
  | cons p rest ih =>
      by_cases hc : p.phone = ph ∧ pinMatches pin p.pin_hash
      · simp [lookupStaffByPin, hc]
      · simp only [List.map_cons, lookupStaffByPin]
        rw [if_neg hc, if_neg hc, ih]

/-! Lemmas about the cascading delete. -/

theorem rolesLookup_removeRoles (rs : List (Nat × Role)) (uid : Nat) :
    rolesLookup (removeRoles rs uid) uid = none := by
  induction rs with
  | nil => rfl
  | cons r rest ih =>
      by_cases h : r.1 = uid
      · simp [removeRoles, h, ih]
      · simp [removeRoles, rolesLookup, h, ih]

theorem findProfileByPhone_removeProfile (profs : List Profile) (ph : String)
    (uid : Nat) (h : ∀ p ∈ profs, p.phone = ph → p.id = uid) :
    findProfileByPhone (removeProfile profs uid) ph = none := by
  induction profs with
  | nil => rfl
  | cons p rest ih =>
      have hp := h p (List.mem_cons_self p rest)
      have hrest : ∀ q ∈ rest, q.phone = ph → q.id = uid :=
        fun q hq => h q (List.mem_cons_of_mem p hq)
      by_cases hid : p.id = uid
      · simp [removeProfile, hid, ih hrest]
      · have hph : ¬ p.phone = ph := fun hph => hid (hp hph)
        simp [removeProfile, hid, findProfileByPhone, hph, ih hrest]

theorem mem_removeAuthUser (us : List AuthUser) (uid : Nat) (u : AuthUser)
    (h : u ∈ removeAuthUser us uid) : u ∈ us ∧ u.id ≠ uid := by
  induction us with
  | nil => simp [removeAuthUser] at h
  | cons v rest ih =>
      by_cases hv : v.id = uid
      · rw [removeAuthUser, if_pos hv] at h
        obtain ⟨hmem, hne⟩ := ih h
        exact ⟨List.mem_cons_of_mem v hmem, hne⟩
      · rw [removeAuthUser, if_neg hv] at h
        rcases List.mem_cons.mp h with rfl | hmem
        · exact ⟨List.mem_cons_self u rest, hv⟩
        · obtain ⟨hmem2, hne⟩ := ih hmem
          exact ⟨List.mem_cons_of_mem v hmem2, hne⟩

/-! Iterated attempts and counting. -/

/-- Run a sequence of `verify_pin` attempts at the given times against a fixed
store, threading the lockout ledger. -/
def failuresAt (profs : List Profile) (ph pin : String) : List Nat → Ledger → Ledger
  | [], l => l
  | t :: ts, l => failuresAt profs ph pin ts (verify_pin t l profs ph pin).2

theorem attemptCount_recordFailure (now : Nat) (l : Ledger) (ph : String) :
    attemptCount (recordFailure now l ph) ph = attemptCount l ph + 1 := by
  cases h : ledgerLookup l ph with
  | none => simp [attemptCount, h, ledgerLookup_recordFailure_of_none now l ph h]
  | some a => simp [attemptCount, h, ledgerLookup_recordFailure_of_some now l ph a h]

theorem verify_pin_v2_eq_nil_of_inactive (profs : List Profile) (ph pin : String)
    (h : ∀ p ∈ profs, p.phone = ph → p.is_active = false) :
    verify_pin_v2 profs ph pin = [] := by
  induction profs with
  | nil => rfl
  | cons p rest ih =>
      have hp := h p (List.mem_cons_self p rest)
      have hrest : ∀ q ∈ rest, q.phone = ph → q.is_active = false :=
        fun q hq => h q (List.mem_cons_of_mem p hq)
      by_cases hph : p.phone = ph
      · simp [verify_pin_v2, hph, hp hph, ih hrest]
      · simp [verify_pin_v2, hph, ih hrest]

/-- Sample staff store: one active farm worker, phone 9876543210, PIN 123456. -/
def workerProfiles : List Profile :=
  [⟨2, "Worker", "9876543210", some "123456", Role.farm_worker, true⟩]

/-- Claim C1 counterexample: four consecutive failed PIN verifications from a
clean ledger leave the lockout expiry NULL (the upsert arms it only when the
pre-increment counter is already at least 4, i.e. on the fifth failure), and a
fifth attempt with the correct PIN, made at a moment the claimed expiry would
still cover, succeeds instead of returning AccountLocked. -/
theorem four_failures_set_no_lockout :
    ledgerLookup (failuresAt workerProfiles "9876543210" "000000" [0, 1, 2, 3] [])
        "9876543210" = some ⟨4, none, 3⟩ ∧
    (verify_pin 4 (failuresAt workerProfiles "9876543210" "000000" [0, 1, 2, 3] [])
        workerProfiles "9876543210" "123456").1 = StaffVerify.success 2 := by
  decide

/-- Claim C1 (amended): five consecutive failed PIN verifications are needed to
arm the lockout — after four the stored expiry is still NULL, and the fifth
sets it to exactly its own now + 15 minutes; any verification attempt made
while now is before that expiry returns AccountLocked with the ledger
unchanged, for every credential store and candidate PIN (the store is not
consulted). -/
theorem lockout_after_five_failures (t1 t2 t3 t4 t5 : Nat) (l0 : Ledger)
    (profs : List Profile) (ph pin : String)
    (h0 : ledgerLookup l0 ph = none)
    (hfail : lookupStaffByPin profs ph pin = none) :
    ledgerLookup (failuresAt profs ph pin [t1, t2, t3, t4] l0) ph
      = some ⟨4, none, t4⟩ ∧
    ledgerLookup (failuresAt profs ph pin [t1, t2, t3, t4, t5] l0) ph
      = some ⟨5, some (t5 + 15), t5⟩ ∧
    (∀ (now : Nat) (profs2 : List Profile) (pin2 : String), now < t5 + 15 →
       verify_pin now (failuresAt profs ph pin [t1, t2, t3, t4, t5] l0) profs2 ph pin2
         = (StaffVerify.locked, failuresAt profs ph pin [t1, t2, t3, t4, t5] l0)) := by
  have e1 : verify_pin t1 l0 profs ph pin
      = (StaffVerify.invalid, recordFailure t1 l0 ph) :=
    verify_pin_of_fail t1 l0 profs ph pin (lockedNow_of_none t1 l0 ph h0) hfail
  have h1 : ledgerLookup (recordFailure t1 l0 ph) ph = some ⟨1, none, t1⟩ :=
    ledgerLookup_recordFailure_of_none t1 l0 ph h0
  have e2 : verify_pin t2 (recordFailure t1 l0 ph) profs ph pin
      = (StaffVerify.invalid, recordFailure t2 (recordFailure t1 l0 ph) ph) :=
    verify_pin_of_fail _ _ _ _ _ (lockedNow_of_no_expiry _ _ _ _ h1 rfl) hfail
  have h2 : ledgerLookup (recordFailure t2 (recordFailure t1 l0 ph) ph) ph
      = some ⟨2, none, t2⟩ := by
    rw [ledgerLookup_recordFailure_of_some t2 _ ph _ h1]
    simp
  have e3 : verify_pin t3 (recordFailure t2 (recordFailure t1 l0 ph) ph) profs ph pin
      = (StaffVerify.invalid,
         recordFailure t3 (recordFailure t2 (recordFailure t1 l0 ph) ph) ph) :=
    verify_pin_of_fail _ _ _ _ _ (lockedNow_of_no_expiry _ _ _ _ h2 rfl) hfail
  have h3 : ledgerLookup
      (recordFailure t3 (recordFailure t2 (recordFailure t1 l0 ph) ph) ph) ph
      = some ⟨3, none, t3⟩ := by
    rw [ledgerLookup_recordFailure_of_some t3 _ ph _ h2]
    simp
  have e4 : verify_pin t4
      (recordFailure t3 (recordFailure t2 (recordFailure t1 l0 ph) ph) ph) profs ph pin
      = (StaffVerify.invalid,
         recordFailure t4
           (recordFailure t3 (recordFailure t2 (recordFailure t1 l0 ph) ph) ph) ph) :=
    verify_pin_of_fail _ _ _ _ _ (lockedNow_of_no_expiry _ _ _ _ h3 rfl) hfail
  have h4 : ledgerLookup
      (recordFailure t4
        (recordFailure t3 (recordFailure t2 (recordFailure t1 l0 ph) ph) ph) ph) ph
      = some ⟨4, none, t4⟩ := by
    rw [ledgerLookup_recordFailure_of_some t4 _ ph _ h3]
    simp
  have e5 : verify_pin t5
      (recordFailure t4
        (recordFailure t3 (recordFailure t2 (recordFailure t1 l0 ph) ph) ph) ph)
      profs ph pin
      = (StaffVerify.invalid,
         recordFailure t5
           (recordFailure t4
             (recordFailure t3 (recordFailure t2 (recordFailure t1 l0 ph) ph) ph) ph) ph) :=
    verify_pin_of_fail _ _ _ _ _ (lockedNow_of_no_expiry _ _ _ _ h4 rfl) hfail
  have h5 : ledgerLookup
      (recordFailure t5
        (recordFailure t4
          (recordFailure t3 (recordFailure t2 (recordFailure t1 l0 ph) ph) ph) ph) ph) ph
      = some ⟨5, some (t5 + 15), t5⟩ := by
    rw [ledgerLookup_recordFailure_of_some t5 _ ph _ h4]
    simp
  have f4 : failuresAt profs ph pin [t1, t2, t3, t4] l0
      = recordFailure t4
          (recordFailure t3 (recordFailure t2 (recordFailure t1 l0 ph) ph) ph) ph := by
    simp [failuresAt, e1, e2, e3, e4]
  have f5 : failuresAt profs ph pin [t1, t2, t3, t4, t5] l0
      = recordFailure t5
          (recordFailure t4
            (recordFailure t3 (recordFailure t2 (recordFailure t1 l0 ph) ph) ph) ph) ph := by
    simp [failuresAt, e1, e2, e3, e4, e5]
  refine ⟨?_, ?_, ?_⟩
  · rw [f4]; exact h4
  · rw [f5]; exact h5
  · intro now profs2 pin2 hlt
    rw [f5]
    exact verify_pin_of_locked now _ profs2 ph pin2
      (lockedNow_of_future_expiry now _ ph _ (t5 + 15) h5 rfl hlt)

/-- Claim C1 (amended) at concrete inputs: worker store, wrong PIN 000000 at
times 0..4, starting from an empty ledger. -/
theorem lockout_after_five_failures_witness :
    ledgerLookup ([] : Ledger) "9876543210" = none ∧
    lookupStaffByPin workerProfiles "9876543210" "000000" = none ∧
    (ledgerLookup (failuresAt workerProfiles "9876543210" "000000" [0, 1, 2, 3] [])
        "9876543210" = some ⟨4, none, 3⟩ ∧
     ledgerLookup (failuresAt workerProfiles "9876543210" "000000" [0, 1, 2, 3, 4] [])
        "9876543210" = some ⟨5, some (4 + 15), 4⟩ ∧
     (∀ (now : Nat) (profs2 : List Profile) (pin2 : String), now < 4 + 15 →
        verify_pin now (failuresAt workerProfiles "9876543210" "000000" [0, 1, 2, 3, 4] [])
            profs2 "9876543210" pin2
          = (StaffVerify.locked,
             failuresAt workerProfiles "9876543210" "000000" [0, 1, 2, 3, 4] []))) :=
  ⟨by decide, by decide,
   lockout_after_five_failures 0 1 2 3 4 [] workerProfiles "9876543210" "000000"
     (by decide) (by decide)⟩

/-- Claim C10: once the stored failure counter is at or above the lockout
threshold, a failed verification attempt made after the expiry has passed
(or with no expiry stored) immediately arms a fresh lockout of exactly
now + 15 minutes, because the upsert's CASE sees the old counter ≥ 4. -/
theorem relock_after_expiry (now : Nat) (l : Ledger) (profs : List Profile)
    (ph pin : String) (a : Attempt)
    (hrec : ledgerLookup l ph = some a)
    (hcount : 4 ≤ a.failed_count)
    (hexp : lockedNow now l ph = false)
    (hfail : lookupStaffByPin profs ph pin = none) :
    verify_pin now l profs ph pin = (StaffVerify.invalid, recordFailure now l ph) ∧
    ledgerLookup (recordFailure now l ph) ph
      = some ⟨a.failed_count + 1, some (now + 15), now⟩ := by
  refine ⟨verify_pin_of_fail now l profs ph pin hexp hfail, ?_⟩
  rw [ledgerLookup_recordFailure_of_some now l ph a hrec]
  simp [hcount]

/-- Claim C10 at concrete inputs: counter 5, expiry 10 already passed at
time 20; the next wrong guess arms a fresh expiry at 20 + 15. -/
theorem relock_after_expiry_witness :
    verify_pin 20 [("9876543210", ⟨5, some 10, 9⟩)] workerProfiles "9876543210" "000000"
      = (StaffVerify.invalid,
         recordFailure 20 [("9876543210", ⟨5, some 10, 9⟩)] "9876543210") ∧
    ledgerLookup (recordFailure 20 [("9876543210", ⟨5, some 10, 9⟩)] "9876543210")
        "9876543210" = some ⟨5 + 1, some (20 + 15), 20⟩ :=
  relock_after_expiry 20 [("9876543210", ⟨5, some 10, 9⟩)] workerProfiles
    "9876543210" "000000" ⟨5, some 10, 9⟩ (by decide) (by decide) (by decide) (by decide)

/-- Claim C6: a successful verification deletes the phone's lockout record,
whatever the prior failure count, for the staff and customer verifiers alike:
the counter reads zero and no expiry survives. -/
theorem success_clears_lockout_record (now : Nat) (l : Ledger)
    (profs : List Profile) (ph pin : String) (uid : Nat)
    (hlock : lockedNow now l ph = false)
    (hfind : lookupStaffByPin profs ph pin = some uid) :
    verify_pin now l profs ph pin = (StaffVerify.success uid, recordSuccess l ph) ∧
    ledgerLookup (recordSuccess l ph) ph = none ∧
    attemptCount (recordSuccess l ph) ph = 0 ∧
    (∀ (accs : List CustomerAccount) (c : CustomerAccount),
       findCustomerByPin accs ph pin = some c →
       verify_customer_pin now l accs ph pin
         = (CustomerVerify.row c.customer_id c.user_id c.is_approved,
            recordSuccess l ph, touchLastLogin now accs ph)) :=
  ⟨verify_pin_of_hit now l profs ph pin uid hlock hfind,
   ledgerLookup_recordSuccess l ph,
   by simp [attemptCount, ledgerLookup_recordSuccess],
   fun accs c hc => verify_customer_pin_of_hit now l accs ph pin c hlock hc⟩

/-- Claim C6 at concrete inputs: three prior failures, then the correct PIN. -/
theorem success_clears_lockout_record_witness :
    verify_pin 7 [("9876543210", ⟨3, none, 2⟩)] workerProfiles "9876543210" "123456"
      = (StaffVerify.success 2, recordSuccess [("9876543210", ⟨3, none, 2⟩)] "9876543210") ∧
    ledgerLookup (recordSuccess [("9876543210", ⟨3, none, 2⟩)] "9876543210") "9876543210"
      = none ∧
    attemptCount (recordSuccess [("9876543210", ⟨3, none, 2⟩)] "9876543210") "9876543210"
      = 0 ∧
    (∀ (accs : List CustomerAccount) (c : CustomerAccount),
       findCustomerByPin accs "9876543210" "123456" = some c →
       verify_customer_pin 7 [("9876543210", ⟨3, none, 2⟩)] accs "9876543210" "123456"
         = (CustomerVerify.row c.customer_id c.user_id c.is_approved,
            recordSuccess [("9876543210", ⟨3, none, 2⟩)] "9876543210",
            touchLastLogin 7 accs "9876543210")) :=
  success_clears_lockout_record 7 [("9876543210", ⟨3, none, 2⟩)] workerProfiles
    "9876543210" "123456" 2 (by decide) (by decide)

/-- Claim C7: an attempt against a phone with no stored identity and an attempt
against an existing identity with a wrong PIN yield the very same
invalid-credentials outcome and the same incremented ledger, for both the
staff and the customer verifier, so the caller cannot tell whether the phone
exists. -/
theorem unknown_phone_indistinguishable (now : Nat) (l : Ledger) (ph pin : String)
    (profsA profsB : List Profile) (accsA accsB : List CustomerAccount)
    (hlock : lockedNow now l ph = false)
    (hA : ∀ p ∈ profsA, p.phone ≠ ph)
    (hB : ∀ p ∈ profsB, p.phone = ph → pinMatches pin p.pin_hash = false)
    (hcA : ∀ c ∈ accsA, c.phone ≠ ph)
    (hcB : ∀ c ∈ accsB, c.phone = ph → pinMatches pin c.pin_hash = false) :
    verify_pin now l profsA ph pin = (StaffVerify.invalid, recordFailure now l ph) ∧
    verify_pin now l profsB ph pin = (StaffVerify.invalid, recordFailure now l ph) ∧
    verify_customer_pin now l accsA ph pin
      = (CustomerVerify.empty, recordFailure now l ph, accsA) ∧
    verify_customer_pin now l accsB ph pin
      = (CustomerVerify.empty, recordFailure now l ph, accsB) ∧
    attemptCount (recordFailure now l ph) ph = attemptCount l ph + 1 := by
  have hA2 : ∀ p ∈ profsA, p.phone = ph → pinMatches pin p.pin_hash = false :=
    fun p hp hph => absurd hph (hA p hp)
  have hcA2 : ∀ c ∈ accsA, c.phone = ph → pinMatches pin c.pin_hash = false :=
    fun c hc hph => absurd hph (hcA c hc)
  exact ⟨verify_pin_of_fail now l profsA ph pin hlock (lookupStaffByPin_eq_none _ _ _ hA2),
         verify_pin_of_fail now l profsB ph pin hlock (lookupStaffByPin_eq_none _ _ _ hB),
         verify_customer_pin_of_fail now l accsA ph pin hlock
           (findCustomerByPin_eq_none _ _ _ hcA2),
         verify_customer_pin_of_fail now l accsB ph pin hlock
           (findCustomerByPin_eq_none _ _ _ hcB),
         attemptCount_recordFailure now l ph⟩

/-- Sample customer store: one approved customer account, phone 9876543210,
PIN 654321. -/
def customerAccounts : List CustomerAccount :=
  [⟨10, some 20, "9876543210", some "654321", true, none⟩]

/-- Claim C7 at concrete inputs: an unknown phone (store holding only other
phones, or an empty customer store) versus a wrong PIN on an existing
identity. -/
theorem unknown_phone_indistinguishable_witness :
    verify_pin 3 [] [⟨1, "Admin", "7897716792", some "101101", Role.super_admin, true⟩]
        "9876543210" "000000"
      = (StaffVerify.invalid, recordFailure 3 [] "9876543210") ∧
    verify_pin 3 [] workerProfiles "9876543210" "000000"
      = (StaffVerify.invalid, recordFailure 3 [] "9876543210") ∧
    verify_customer_pin 3 [] [] "9876543210" "000000"
      = (CustomerVerify.empty, recordFailure 3 [] "9876543210", []) ∧
    verify_customer_pin 3 [] customerAccounts "9876543210" "000000"
      = (CustomerVerify.empty, recordFailure 3 [] "9876543210", customerAccounts) ∧
    attemptCount (recordFailure 3 [] "9876543210") "9876543210"
      = attemptCount [] "9876543210" + 1 :=
  unknown_phone_indistinguishable 3 [] "9876543210" "000000"
    [⟨1, "Admin", "7897716792", some "101101", Role.super_admin, true⟩] workerProfiles
    [] customerAccounts
    (by decide) (by decide) (by decide) (by decide) (by decide)

/-- Claim C8: the login handler checks approval only after the PIN verifies:
a correct PIN on an unapproved account yields the pending-approval outcome
with the lockout record already cleared, while a wrong PIN yields the
invalid-credentials outcome for every account store — in particular for any
approval state — so approval is never revealed without the correct PIN. -/
theorem approval_checked_after_pin (now : Nat) (l : Ledger)
    (accs : List CustomerAccount) (ph pin : String) (c : CustomerAccount)
    (hph : isTenDigits ph = true) (hpin : isSixDigits pin = true)
    (hlock : lockedNow now l ph = false)
    (hfind : findCustomerByPin accs ph pin = some c)
    (happr : c.is_approved = false) :
    customerLogin now l accs ph pin
      = (LoginOutcome.pendingApproval, recordSuccess l ph, touchLastLogin now accs ph) ∧
    ledgerLookup (recordSuccess l ph) ph = none ∧
    (∀ accs2 : List CustomerAccount,
       (∀ a ∈ accs2, a.phone = ph → pinMatches pin a.pin_hash = false) →
       customerLogin now l accs2 ph pin
         = (LoginOutcome.invalidCredentials, recordFailure now l ph, accs2)) := by
  refine ⟨?_, ledgerLookup_recordSuccess l ph, ?_⟩
  · rw [customerLogin, if_neg (by simp [hph]), if_neg (by simp [hpin]),
      verify_customer_pin_of_hit now l accs ph pin c hlock hfind]
    simp [happr]
  · intro accs2 h2
    rw [customerLogin, if_neg (by simp [hph]), if_neg (by simp [hpin]),
      verify_customer_pin_of_fail now l accs2 ph pin hlock
        (findCustomerByPin_eq_none _ _ _ h2)]

/-- Sample customer store: one unapproved account, phone 9876543210,
PIN 123456. -/
def pendingAccounts : List CustomerAccount :=
  [⟨11, none, "9876543210", some "123456", false, none⟩]

/-- Claim C8 at concrete inputs: the correct PIN on an unapproved account
(with two prior failures on the ledger) versus a wrong PIN. -/
theorem approval_checked_after_pin_witness :
    customerLogin 9 [("9876543210", ⟨2, none, 1⟩)] pendingAccounts "9876543210" "123456"
      = (LoginOutcome.pendingApproval,
         recordSuccess [("9876543210", ⟨2, none, 1⟩)] "9876543210",
         touchLastLogin 9 pendingAccounts "9876543210") ∧
    ledgerLookup (recordSuccess [("9876543210", ⟨2, none, 1⟩)] "9876543210") "9876543210"
      = none ∧
    (∀ accs2 : List CustomerAccount,
       (∀ a ∈ accs2, a.phone = "9876543210" → pinMatches "123456" a.pin_hash = false) →
       customerLogin 9 [("9876543210", ⟨2, none, 1⟩)] accs2 "9876543210" "123456"
         = (LoginOutcome.invalidCredentials,
            recordFailure 9 [("9876543210", ⟨2, none, 1⟩)] "9876543210", accs2)) :=
  approval_checked_after_pin 9 [("9876543210", ⟨2, none, 1⟩)] pendingAccounts
    "9876543210" "123456" ⟨11, none, "9876543210", some "123456", false, none⟩
    (by decide) (by decide) (by decide) (by decide) (by decide)

/-- Claim C9: change_own_pin called with a correct current PIN and a new PIN
that is not exactly six decimal digits returns the validation error and
returns the profile store unchanged — the format check runs before any
update. -/
theorem changePin_validation_leaves_hash (uid : Nat) (profs : List Profile)
    (cur np : String) (p : Profile)
    (_hfind : findProfileByIdPin profs uid cur = some p)
    (hnp : isSixDigits np = false) :
    change_own_pin (some uid) profs cur np = (PinChange.validationError, profs) := by
  simp [change_own_pin, hnp]

/-- Claim C9 at concrete inputs: correct current PIN 123456, five-digit new
PIN 12345. -/
theorem changePin_validation_leaves_hash_witness :
    findProfileByIdPin workerProfiles 2 "123456"
      = some ⟨2, "Worker", "9876543210", some "123456", Role.farm_worker, true⟩ ∧
    change_own_pin (some 2) workerProfiles "123456" "12345"
      = (PinChange.validationError, workerProfiles) :=
  ⟨by decide,
   changePin_validation_leaves_hash 2 workerProfiles "123456" "12345"
     ⟨2, "Worker", "9876543210", some "123456", Role.farm_worker, true⟩
     (by decide) (by decide)⟩

/-- Sample staff store: one inactive accountant with an intact PIN hash. -/
def inactiveProfiles : List Profile :=
  [⟨3, "Disabled", "9876500000", some "222222", Role.accountant, false⟩]

/-- Claim C5 counterexample: an existing but inactive staff identity presenting
the correct PIN: the consolidated verify_pin returns success — not a distinct
AccountInactive outcome — and modifies the lockout ledger by deleting the
phone's record (two prior failures are erased). -/
theorem inactive_verifies_successfully :
    verify_pin 5 [("9876500000", ⟨2, none, 0⟩)] inactiveProfiles "9876500000" "222222"
      = (StaffVerify.success 3, []) ∧
    ([("9876500000", (⟨2, none, 0⟩ : Attempt))] : Ledger) ≠ [] := by
  decide

/-- Claim C5 (amended): no verifier produces an AccountInactive outcome: the
consolidated verify_pin never consults the active flag (its result is
invariant under arbitrary rewrites of every profile's is_active, so an
inactive identity behaves exactly like an active one, ledger updates
included), and the create_user_functions verify_pin merely filters inactive
rows out of its lookup, returning the same empty row set as for an unknown
phone; that variant has no lockout ledger at all. -/
theorem no_account_inactive_outcome (now : Nat) (l : Ledger)
    (profs : List Profile) (ph pin : String) (f : Profile → Bool) :
    verify_pin now l (profs.map fun p => { p with is_active := f p }) ph pin
      = verify_pin now l profs ph pin ∧
    ((∀ p ∈ profs, p.phone = ph → p.is_active = false) →
       verify_pin_v2 profs ph pin = []) :=
  ⟨by simp [verify_pin, lookupStaffByPin_map_active],
   verify_pin_v2_eq_nil_of_inactive profs ph pin⟩

/-- Claim C5 (amended) at concrete inputs: flipping the inactive accountant to
active changes nothing for the consolidated verifier, and the
create_user_functions verifier returns no rows for the inactive store. -/
theorem no_account_inactive_outcome_witness :
    verify_pin 5 [] (inactiveProfiles.map fun p => { p with is_active := true })
        "9876500000" "222222"
      = verify_pin 5 [] inactiveProfiles "9876500000" "222222" ∧
    verify_pin_v2 inactiveProfiles "9876500000" "222222" = [] :=
  ⟨(no_account_inactive_outcome 5 [] inactiveProfiles "9876500000" "222222"
      (fun _ => true)).1,
   (no_account_inactive_outcome 5 [] inactiveProfiles "9876500000" "222222"
      (fun _ => true)).2 (by decide)⟩

/-- Db in which the mutable profile row says super_admin while the
RoleAssignment (user_roles) row for the same user says farm_worker. -/
def escalatedDb : Db :=
  { authUsers := [⟨7, "7000000007@awadhdairy.com"⟩, ⟨9, "9000000009@awadhdairy.com"⟩],
    profiles :=
      [⟨7, "Actor", "7000000007", some "111111", Role.super_admin, true⟩,
       ⟨9, "Victim", "9000000009", some "333333", Role.farm_worker, true⟩],
    user_roles := [(7, Role.farm_worker), (9, Role.farm_worker)] }

/-- Claim C2 counterexample: the delete-user handler authorizes a deletion for
an actor whose user_roles row says farm_worker, because the decision reads the
mutable profiles.role column first — so user_roles is not the only input. -/
theorem profile_role_escalation :
    rolesLookup escalatedDb.user_roles 7 = some Role.farm_worker ∧
    (deleteUserHandler escalatedDb 7 9).1 = DeleteResult.deleted := by
  decide

/-- Claim C2 (amended): the delete-user authorization decision reads the
mutable profiles.role column whenever the actor has a profile row — the
outcome is then independent of the entire user_roles table — and consults
user_roles only as a fallback when no profile row exists. -/
theorem delete_auth_reads_profile_role (db : Db) (actor : Nat) :
    (∀ p : Profile, findProfileById db.profiles actor = some p →
       ∀ rs : List (Nat × Role),
         deleteUserRole { db with user_roles := rs } actor = some p.role) ∧
    (findProfileById db.profiles actor = none →
       deleteUserRole db actor = rolesLookup db.user_roles actor) := by
  constructor
  · intro p hp rs
    simp [deleteUserRole, hp]
  · intro h
    simp [deleteUserRole, h]

/-- Claim C2 (amended) at concrete inputs: the actor's resolved role is the
profile's super_admin for every content of user_roles, here the empty table. -/
theorem delete_auth_reads_profile_role_witness :
    findProfileById escalatedDb.profiles 7
      = some ⟨7, "Actor", "7000000007", some "111111", Role.super_admin, true⟩ ∧
    deleteUserRole { escalatedDb with user_roles := [] } 7 = some Role.super_admin :=
  ⟨by decide,
   (delete_auth_reads_profile_role escalatedDb 7).1
     ⟨7, "Actor", "7000000007", some "111111", Role.super_admin, true⟩ (by decide) []⟩

/-- Sample staff store holding a single super admin. -/
def soloAdmin : List Profile :=
  [⟨7, "Actor", "7000000007", some "111111", Role.super_admin, true⟩]

/-- Claim C3: the migration's admin_update_user_status always rejects a
deactivation request whose target holds super_admin in user_roles, and always
rejects a deactivation request whose actor equals the target, in both cases
returning a failure (never the ok outcome) and leaving the profile store —
hence every target's active flag — unchanged. -/
theorem status_guards_reject_deactivation (actor target : Nat)
    (roles : List (Nat × Role)) (profs : List Profile) :
    (target = actor →
       (admin_update_user_status_migration (some actor) roles profs target false).1
           ≠ GuardedStatusResult.ok ∧
       (admin_update_user_status_migration (some actor) roles profs target false).2
           = profs) ∧
    (rolesLookup roles target = some Role.super_admin →
       (admin_update_user_status_migration (some actor) roles profs target false).1
           ≠ GuardedStatusResult.ok ∧
       (admin_update_user_status_migration (some actor) roles profs target false).2
           = profs) := by
  constructor
  · intro h
    subst h
    by_cases hs : has_role roles target Role.super_admin = true
    · simp [admin_update_user_status_migration, hs]
    · simp [admin_update_user_status_migration,
        Bool.eq_false_iff.mpr (fun hc => hs hc)]
  · intro h
    by_cases hs : has_role roles actor Role.super_admin = true
    · by_cases hself : target = actor
      · subst hself
        simp [admin_update_user_status_migration, hs]
      · simp [admin_update_user_status_migration, hs, hself, h]
    · simp [admin_update_user_status_migration,
        Bool.eq_false_iff.mpr (fun hc => hs hc)]

/-- Claim C3 at concrete inputs: actor 7 (a super admin) trying to deactivate
themselves, and trying to deactivate the other super admin 9: both requests
are rejected and the profile store is unchanged. -/
theorem status_guards_reject_deactivation_witness :
    rolesLookup [(7, Role.super_admin), (9, Role.super_admin)] 9
      = some Role.super_admin ∧
    ((admin_update_user_status_migration (some 7)
        [(7, Role.super_admin), (9, Role.super_admin)] soloAdmin 7 false).1
        ≠ GuardedStatusResult.ok ∧
     (admin_update_user_status_migration (some 7)
        [(7, Role.super_admin), (9, Role.super_admin)] soloAdmin 7 false).2
        = soloAdmin) ∧
    ((admin_update_user_status_migration (some 7)
        [(7, Role.super_admin), (9, Role.super_admin)] soloAdmin 9 false).1
        ≠ GuardedStatusResult.ok ∧
     (admin_update_user_status_migration (some 7)
        [(7, Role.super_admin), (9, Role.super_admin)] soloAdmin 9 false).2
        = soloAdmin) :=
  ⟨by decide,
   (status_guards_reject_deactivation 7 7
      [(7, Role.super_admin), (9, Role.super_admin)] soloAdmin).1 rfl,
   (status_guards_reject_deactivation 7 9
      [(7, Role.super_admin), (9, Role.super_admin)] soloAdmin).2 (by decide)⟩

/-- Claim C4: a successful permanent delete removes the identity from
auth.users, profiles and user_roles as one unit (one auth deletion plus the
schema's cascades), after which check_phone_availability reports available and
no store still holds a row for that phone or its synthesized address. -/
theorem delete_then_phone_available (db : Db) (actor target : Nat) (ph : String)
    (hrole : deleteUserRole db actor = some Role.super_admin)
    (hne : target ≠ actor)
    (htarget : rolesLookup db.user_roles target ≠ some Role.super_admin)
    (hphone : ∀ p ∈ db.profiles, p.phone = ph → p.id = target)
    (hmail : ∀ u ∈ db.authUsers, u.email = staffEmail ph → u.id = target) :
    (deleteUserHandler db actor target).1 = DeleteResult.deleted ∧
    check_phone_availability (deleteUserHandler db actor target).2.profiles ph
      = PhoneAvailability.available ∧
    rolesLookup (deleteUserHandler db actor target).2.user_roles target = none ∧
    (∀ u ∈ (deleteUserHandler db actor target).2.authUsers, u.email ≠ staffEmail ph) := by
  have hrun : deleteUserHandler db actor target
      = (DeleteResult.deleted, deleteAuthUserCascade db target) := by
    simp [deleteUserHandler, hrole, hne, htarget]
  rw [hrun]
  refine ⟨rfl, ?_, ?_, ?_⟩
  · simp [check_phone_availability, deleteAuthUserCascade,
      findProfileByPhone_removeProfile db.profiles ph target hphone]
  · exact rolesLookup_removeRoles db.user_roles target
  · intro u hu hmailu
    obtain ⟨hmem, hne2⟩ := mem_removeAuthUser db.authUsers target u hu
    exact hne2 (hmail u hmem hmailu)

/-- Claim C4 at concrete inputs: the super admin deletes the worker with phone
9000000009; immediately afterwards the phone reports available and neither the
role table nor the session provider holds a matching record. -/
theorem delete_then_phone_available_witness :
    (deleteUserHandler escalatedDb 7 9).1 = DeleteResult.deleted ∧
    check_phone_availability (deleteUserHandler escalatedDb 7 9).2.profiles "9000000009"
      = PhoneAvailability.available ∧
    rolesLookup (deleteUserHandler escalatedDb 7 9).2.user_roles 9 = none ∧
    (∀ u ∈ (deleteUserHandler escalatedDb 7 9).2.authUsers,
       u.email ≠ staffEmail "9000000009") :=
  delete_then_phone_available escalatedDb 7 9 "9000000009"
    (by decide) (by decide) (by decide) (by decide) (by decide)

end AwadhDairy
